import Mathlib

/-!
Verification of the E-Learn satellite-explorer repository (src/proxy/proxy.js)
against its natural-language specification.

The file shallowly embeds the two components of the program:

* the proxy gateway: four Express GET handlers (`/api/n2yo/above`,
  `/api/n2yo/passes`, `/api/nasa/earth-image`, `/api/weather`), each modelled
  as a pure function from its query parameters and an upstream `fetch`
  environment to the HTTP response it sends, together with the list of
  upstream URLs it requested and what it logged server-side;

* the map client (`class SatelliteExplorer`): the handlers that consume the
  gateway responses (`renderSatelliteList`, `trackSatelliteById`,
  `createPassPopup`, `displayWeatherData`, `searchCountry`), modelled as pure
  functions from the fetched data and the current marker-layer state to the
  rendered output.

JavaScript numbers are modelled as rationals, JS falsiness of strings
(undefined or "" is falsy) is modelled explicitly, and the `try/catch` blocks
become case analysis on an `Except`-like fetch result.
-/

namespace SatProxy

/-! ## Gateway data model -/

/-- The hardcoded N2YO credential (proxy.js line 13). -/
def API_KEYS_N2YO : String := "9UK5QD-3BZDNQ-KWUH2A-5KFI"

/-- The hardcoded NASA credential (proxy.js line 14). -/
def API_KEYS_NASA : String := "69dIc1IkaKKMSRhmHXTC78gY0gZE5YHoThXBYWPo"

/-- The hardcoded OpenWeatherMap credential (proxy.js line 15). -/
def API_KEYS_OPENWEATHER : String := "bf997f92aee76cee24f92d4f8f4112e4"

/-- An upstream HTTP response as the gateway observes it: the `ok` flag,
the status text (used only in thrown error messages), the JSON document
(`await response.json()` then `res.json(data)` is modelled as relaying the
document verbatim), and the raw byte stream (used by the imagery endpoint,
`response.body.pipe(res)`). -/
structure UpstreamResponse where
  ok : Bool
  statusText : String
  jsonBody : String
  bytes : List Nat
deriving DecidableEq, Repr

/-- The outcome of `await fetch(url)`: either a response, or a rejection
(network failure), which the `catch` block receives. -/
inductive FetchResult where
  | success (resp : UpstreamResponse)
  | networkFailure (msg : String)
deriving DecidableEq, Repr

/-- The body a gateway handler sends back: a JSON error object
(`res.status(...).json(\x7b error: msg \x7d)`), a relayed JSON document
(`res.json(data)`), or a piped binary stream. -/
inductive ResponseBody where
  | jsonError (msg : String)
  | jsonData (doc : String)
  | binaryPipe (bytes : List Nat)
deriving DecidableEq, Repr

/-- True exactly when the body is a JSON object with an `error` field. -/
def ResponseBody.isJsonError : ResponseBody → Bool
  | .jsonError _ => true
  | _ => false

/-- What one gateway handler invocation produced: the HTTP status, the body,
the list of upstream URLs it fetched (in order), and what it logged with
`console.error` (the server-side log line, never sent to the caller). -/
structure HandlerResult where
  status : Nat
  body : ResponseBody
  calls : List String
  log : Option String
deriving DecidableEq, Repr

/-- JS falsiness of an optional query parameter: `!x` is true when the
parameter is absent (`undefined`) or the empty string. Any other string is
truthy. -/
def jsFalsy : Option String → Bool
  | none => true
  | some s => s.isEmpty

/-- The upstream URL built by `/api/n2yo/above` (proxy.js line 36). -/
def aboveUrl (lat lng : String) : String :=
  "https://api.n2yo.com/rest/v1/satellite/above/" ++ lat ++ "/" ++ lng ++
    "/0/70/0/?apiKey=" ++ API_KEYS_N2YO

/-- The upstream URL built by `/api/n2yo/passes` (proxy.js line 56). -/
def passesUrl (satId lat lng : String) : String :=
  "https://api.n2yo.com/rest/v1/satellite/radiopasses/" ++ satId ++ "/" ++
    lat ++ "/" ++ lng ++ "/0/7/10/?apiKey=" ++ API_KEYS_N2YO

/-- The upstream URL built by `/api/nasa/earth-image` (proxy.js line 77,
with the fixed `dim = 0.2`). -/
def earthImageUrl (lat lng : String) : String :=
  "https://api.nasa.gov/planetary/earth/imagery?lat=" ++ lat ++ "&lon=" ++
    lng ++ "&dim=0.2&api_key=" ++ API_KEYS_NASA

/-- The upstream URL built by `/api/weather` (proxy.js line 97). -/
def weatherUrl (lat lng : String) : String :=
  "https://api.openweathermap.org/data/2.5/weather?lat=" ++ lat ++ "&lon=" ++
    lng ++ "&units=metric&appid=" ++ API_KEYS_OPENWEATHER

/-- The `/api/n2yo/above` handler (proxy.js lines 30-47). Validates that
`lat` and `lng` are truthy, else 400; fetches exactly once; a non-ok
upstream response throws (caught: log the status text, respond 500 with a
generic message); a network rejection is caught the same way; on success
relays the JSON document. -/
def aboveHandler (lat lng : Option String) (fetch : String → FetchResult) :
    HandlerResult :=
  if jsFalsy lat || jsFalsy lng then
    { status := 400, body := .jsonError "Latitude and longitude are required.",
      calls := [], log := none }
  else
    let url := aboveUrl (lat.getD "") (lng.getD "")
    match fetch url with
    | .success resp =>
      if resp.ok then
        { status := 200, body := .jsonData resp.jsonBody, calls := [url],
          log := none }
      else
        { status := 500, body := .jsonError "Failed to fetch satellite data.",
          calls := [url],
          log := some ("N2YO API Error: " ++ resp.statusText) }
    | .networkFailure msg =>
        { status := 500, body := .jsonError "Failed to fetch satellite data.",
          calls := [url], log := some msg }

/-- The `/api/n2yo/passes` handler (proxy.js lines 50-67). Same shape as
`aboveHandler`, but additionally requires `satId`. -/
def passesHandler (satId lat lng : Option String)
    (fetch : String → FetchResult) : HandlerResult :=
  if jsFalsy satId || jsFalsy lat || jsFalsy lng then
    { status := 400,
      body := .jsonError "Satellite ID, latitude, and longitude are required.",
      calls := [], log := none }
  else
    let url := passesUrl (satId.getD "") (lat.getD "") (lng.getD "")
    match fetch url with
    | .success resp =>
      if resp.ok then
        { status := 200, body := .jsonData resp.jsonBody, calls := [url],
          log := none }
      else
        { status := 500, body := .jsonError "Failed to fetch pass data.",
          calls := [url],
          log := some ("N2YO API Error: " ++ resp.statusText) }
    | .networkFailure msg =>
        { status := 500, body := .jsonError "Failed to fetch pass data.",
          calls := [url], log := some msg }

/-- The `/api/nasa/earth-image` handler (proxy.js lines 70-88). On success
the upstream body is piped back as-is (`response.body.pipe(res)`, express
default status 200); failures behave like the JSON endpoints. -/
def earthImageHandler (lat lng : Option String)
    (fetch : String → FetchResult) : HandlerResult :=
  if jsFalsy lat || jsFalsy lng then
    { status := 400, body := .jsonError "Latitude and longitude are required.",
      calls := [], log := none }
  else
    let url := earthImageUrl (lat.getD "") (lng.getD "")
    match fetch url with
    | .success resp =>
      if resp.ok then
        { status := 200, body := .binaryPipe resp.bytes, calls := [url],
          log := none }
      else
        { status := 500, body := .jsonError "Failed to fetch NASA image.",
          calls := [url],
          log := some ("NASA API Error: " ++ resp.statusText) }
    | .networkFailure msg =>
        { status := 500, body := .jsonError "Failed to fetch NASA image.",
          calls := [url], log := some msg }

/-- The `/api/weather` handler (proxy.js lines 91-108). -/
def weatherHandler (lat lng : Option String)
    (fetch : String → FetchResult) : HandlerResult :=
  if jsFalsy lat || jsFalsy lng then
    { status := 400, body := .jsonError "Latitude and longitude are required.",
      calls := [], log := none }
  else
    let url := weatherUrl (lat.getD "") (lng.getD "")
    match fetch url with
    | .success resp =>
      if resp.ok then
        { status := 200, body := .jsonData resp.jsonBody, calls := [url],
          log := none }
      else
        { status := 500, body := .jsonError "Failed to fetch weather data.",
          calls := [url],
          log := some ("OpenWeatherMap API Error: " ++ resp.statusText) }
    | .networkFailure msg =>
        { status := 500, body := .jsonError "Failed to fetch weather data.",
          calls := [url], log := some msg }

/-- A handler outcome that rejects the request: status 400, a JSON body with
an `error` field, and no upstream call made. -/
def rejected400 (r : HandlerResult) : Prop :=
  r.status = 400 ∧ r.body.isJsonError = true ∧ r.calls = []

/-- A fetch environment used by concrete witnesses: every request fails at
the network layer. -/
def downFetch : String → FetchResult := fun _ => .networkFailure "ECONNREFUSED"

end SatProxy

namespace SatProxy

/-! ## Claim C1 -/

/-- C1: on every gateway endpoint, a missing required query parameter
(latitude or longitude on every coordinate endpoint, and additionally the
satellite id on the pass-prediction endpoint) makes the handler respond
HTTP 400 with a JSON body carrying an `error` field, and no upstream call is
made. -/
theorem missing_param_yields_400_no_upstream_call
    (lat lng satId : Option String) (fetch : String → FetchResult)
    (h : jsFalsy lat = true ∨ jsFalsy lng = true ∨ jsFalsy satId = true) :
    rejected400 (passesHandler satId lat lng fetch) ∧
    ((jsFalsy lat = true ∨ jsFalsy lng = true) →
      rejected400 (aboveHandler lat lng fetch) ∧
      rejected400 (earthImageHandler lat lng fetch) ∧
      rejected400 (weatherHandler lat lng fetch)) := by
  constructor
  · have hcond : (jsFalsy satId || jsFalsy lat || jsFalsy lng) = true := by
      rcases h with h | h | h <;> simp [h]
    simp [passesHandler, hcond, rejected400, ResponseBody.isJsonError]
  · intro h2
    have hcond : (jsFalsy lat || jsFalsy lng) = true := by
      rcases h2 with h2 | h2 <;> simp [h2]
    refine ⟨?_, ?_, ?_⟩ <;>
      simp [aboveHandler, earthImageHandler, weatherHandler, hcond,
        rejected400, ResponseBody.isJsonError]

/-- Witness for C1: with latitude absent (and a satellite id supplied), the
pass-prediction and satellites-above endpoints both reject with 400 and make
no upstream call. -/
theorem missing_param_yields_400_no_upstream_call_witness :
    rejected400 (passesHandler (some "25544") none (some "32.7") downFetch) ∧
    rejected400 (aboveHandler none (some "32.7") downFetch) := by
  have h := missing_param_yields_400_no_upstream_call none (some "32.7")
    (some "25544") downFetch (Or.inl rfl)
  exact ⟨h.1, (h.2 (Or.inl rfl)).1⟩

/-! ## Helper lemmas for the validated path of each handler -/

/-- A fetch result the catch block fires on: a non-ok response or a network
rejection. -/
def upstreamFailed : FetchResult → Bool
  | .success r => !r.ok
  | .networkFailure _ => true

/-- `s` contains `t` as a contiguous substring. -/
def strContains (hay needle : String) : Prop :=
  List.IsInfix needle.data hay.data

instance (hay needle : String) : Decidable (strContains hay needle) :=
  List.decidableInfix needle.data hay.data

theorem aboveHandler_present_spec (lat lng : Option String)
    (fetch : String → FetchResult)
    (hlat : jsFalsy lat = false) (hlng : jsFalsy lng = false) :
    (aboveHandler lat lng fetch).calls =
      [aboveUrl (lat.getD "") (lng.getD "")] ∧
    ∀ m, (aboveHandler lat lng fetch).body = ResponseBody.jsonError m →
      m = "Failed to fetch satellite data." := by
  unfold aboveHandler
  rw [if_neg (by simp [hlat, hlng])]
  cases hfu : fetch (aboveUrl (lat.getD "") (lng.getD "")) with
  | success r => cases hok : r.ok <;> simp [hfu, hok]
  | networkFailure m => simp [hfu]

theorem passesHandler_present_spec (satId lat lng : Option String)
    (fetch : String → FetchResult) (hsat : jsFalsy satId = false)
    (hlat : jsFalsy lat = false) (hlng : jsFalsy lng = false) :
    (passesHandler satId lat lng fetch).calls =
      [passesUrl (satId.getD "") (lat.getD "") (lng.getD "")] ∧
    ∀ m, (passesHandler satId lat lng fetch).body = ResponseBody.jsonError m →
      m = "Failed to fetch pass data." := by
  unfold passesHandler
  rw [if_neg (by simp [hsat, hlat, hlng])]
  cases hfu : fetch (passesUrl (satId.getD "") (lat.getD "") (lng.getD "")) with
  | success r => cases hok : r.ok <;> simp [hfu, hok]
  | networkFailure m => simp [hfu]

theorem earthImageHandler_present_spec (lat lng : Option String)
    (fetch : String → FetchResult)
    (hlat : jsFalsy lat = false) (hlng : jsFalsy lng = false) :
    (earthImageHandler lat lng fetch).calls =
      [earthImageUrl (lat.getD "") (lng.getD "")] ∧
    ∀ m, (earthImageHandler lat lng fetch).body = ResponseBody.jsonError m →
      m = "Failed to fetch NASA image." := by
  unfold earthImageHandler
  rw [if_neg (by simp [hlat, hlng])]
  cases hfu : fetch (earthImageUrl (lat.getD "") (lng.getD "")) with
  | success r => cases hok : r.ok <;> simp [hfu, hok]
  | networkFailure m => simp [hfu]

theorem weatherHandler_present_spec (lat lng : Option String)
    (fetch : String → FetchResult)
    (hlat : jsFalsy lat = false) (hlng : jsFalsy lng = false) :
    (weatherHandler lat lng fetch).calls =
      [weatherUrl (lat.getD "") (lng.getD "")] ∧
    ∀ m, (weatherHandler lat lng fetch).body = ResponseBody.jsonError m →
      m = "Failed to fetch weather data." := by
  unfold weatherHandler
  rw [if_neg (by simp [hlat, hlng])]
  cases hfu : fetch (weatherUrl (lat.getD "") (lng.getD "")) with
  | success r => cases hok : r.ok <;> simp [hfu, hok]
  | networkFailure m => simp [hfu]

/-- The N2YO credential is injected at the end of the above-lookup URL. -/
theorem aboveUrl_has_key (lat lng : String) :
    strContains (aboveUrl lat lng) API_KEYS_N2YO :=
  ⟨("https://api.n2yo.com/rest/v1/satellite/above/" ++ lat ++ "/" ++ lng ++
      "/0/70/0/?apiKey=").data, [],
    by simp [aboveUrl, String.data_append]⟩

/-- The N2YO credential is injected at the end of the pass-prediction URL. -/
theorem passesUrl_has_key (satId lat lng : String) :
    strContains (passesUrl satId lat lng) API_KEYS_N2YO :=
  ⟨("https://api.n2yo.com/rest/v1/satellite/radiopasses/" ++ satId ++ "/" ++
      lat ++ "/" ++ lng ++ "/0/7/10/?apiKey=").data, [],
    by simp [passesUrl, String.data_append]⟩

/-- The NASA credential is injected at the end of the imagery URL. -/
theorem earthImageUrl_has_key (lat lng : String) :
    strContains (earthImageUrl lat lng) API_KEYS_NASA :=
  ⟨("https://api.nasa.gov/planetary/earth/imagery?lat=" ++ lat ++ "&lon=" ++
      lng ++ "&dim=0.2&api_key=").data, [],
    by simp [earthImageUrl, String.data_append]⟩

/-- The OpenWeatherMap credential is injected at the end of the weather URL. -/
theorem weatherUrl_has_key (lat lng : String) :
    strContains (weatherUrl lat lng) API_KEYS_OPENWEATHER :=
  ⟨("https://api.openweathermap.org/data/2.5/weather?lat=" ++ lat ++ "&lon=" ++
      lng ++ "&units=metric&appid=").data, [],
    by simp [weatherUrl, String.data_append]⟩

theorem aboveHandler_failure_spec (lat lng : Option String)
    (fetch : String → FetchResult)
    (hlat : jsFalsy lat = false) (hlng : jsFalsy lng = false)
    (hf : upstreamFailed (fetch (aboveUrl (lat.getD "") (lng.getD ""))) = true) :
    (aboveHandler lat lng fetch).status = 500 ∧
    (aboveHandler lat lng fetch).body =
      ResponseBody.jsonError "Failed to fetch satellite data." := by
  unfold aboveHandler
  rw [if_neg (by simp [hlat, hlng])]
  cases hfu : fetch (aboveUrl (lat.getD "") (lng.getD "")) with
  | success r =>
      rw [hfu] at hf
      simp only [upstreamFailed, Bool.not_eq_true'] at hf
      simp [hfu, hf]
  | networkFailure m => simp [hfu]

theorem passesHandler_failure_spec (satId lat lng : Option String)
    (fetch : String → FetchResult) (hsat : jsFalsy satId = false)
    (hlat : jsFalsy lat = false) (hlng : jsFalsy lng = false)
    (hf : upstreamFailed
      (fetch (passesUrl (satId.getD "") (lat.getD "") (lng.getD ""))) = true) :
    (passesHandler satId lat lng fetch).status = 500 ∧
    (passesHandler satId lat lng fetch).body =
      ResponseBody.jsonError "Failed to fetch pass data." := by
  unfold passesHandler
  rw [if_neg (by simp [hsat, hlat, hlng])]
  cases hfu : fetch (passesUrl (satId.getD "") (lat.getD "") (lng.getD "")) with
  | success r =>
      rw [hfu] at hf
      simp only [upstreamFailed, Bool.not_eq_true'] at hf
      simp [hfu, hf]
  | networkFailure m => simp [hfu]

theorem earthImageHandler_failure_spec (lat lng : Option String)
    (fetch : String → FetchResult)
    (hlat : jsFalsy lat = false) (hlng : jsFalsy lng = false)
    (hf : upstreamFailed
      (fetch (earthImageUrl (lat.getD "") (lng.getD ""))) = true) :
    (earthImageHandler lat lng fetch).status = 500 ∧
    (earthImageHandler lat lng fetch).body =
      ResponseBody.jsonError "Failed to fetch NASA image." := by
  unfold earthImageHandler
  rw [if_neg (by simp [hlat, hlng])]
  cases hfu : fetch (earthImageUrl (lat.getD "") (lng.getD "")) with
  | success r =>
      rw [hfu] at hf
      simp only [upstreamFailed, Bool.not_eq_true'] at hf
      simp [hfu, hf]
  | networkFailure m => simp [hfu]

theorem weatherHandler_failure_spec (lat lng : Option String)
    (fetch : String → FetchResult)
    (hlat : jsFalsy lat = false) (hlng : jsFalsy lng = false)
    (hf : upstreamFailed
      (fetch (weatherUrl (lat.getD "") (lng.getD ""))) = true) :
    (weatherHandler lat lng fetch).status = 500 ∧
    (weatherHandler lat lng fetch).body =
      ResponseBody.jsonError "Failed to fetch weather data." := by
  unfold weatherHandler
  rw [if_neg (by simp [hlat, hlng])]
  cases hfu : fetch (weatherUrl (lat.getD "") (lng.getD "")) with
  | success r =>
      rw [hfu] at hf
      simp only [upstreamFailed, Bool.not_eq_true'] at hf
      simp [hfu, hf]
  | networkFailure m => simp [hfu]

/-! ## Claim C2 -/

/-- C2: when the upstream response has a non-success status or the network
request fails, every gateway endpoint (called with its required parameters
present) responds HTTP 500 with a JSON body whose `error` message is the
endpoint's fixed generic string — independent of the upstream status detail,
so never partial or garbled. -/
theorem upstream_failure_yields_500_generic_error
    (lat lng satId : Option String) (fetch : String → FetchResult)
    (hlat : jsFalsy lat = false) (hlng : jsFalsy lng = false)
    (hsat : jsFalsy satId = false)
    (hfail : ∀ url, upstreamFailed (fetch url) = true) :
    (aboveHandler lat lng fetch).status = 500 ∧
    (aboveHandler lat lng fetch).body =
      ResponseBody.jsonError "Failed to fetch satellite data." ∧
    (passesHandler satId lat lng fetch).status = 500 ∧
    (passesHandler satId lat lng fetch).body =
      ResponseBody.jsonError "Failed to fetch pass data." ∧
    (earthImageHandler lat lng fetch).status = 500 ∧
    (earthImageHandler lat lng fetch).body =
      ResponseBody.jsonError "Failed to fetch NASA image." ∧
    (weatherHandler lat lng fetch).status = 500 ∧
    (weatherHandler lat lng fetch).body =
      ResponseBody.jsonError "Failed to fetch weather data." := by
  have ha := aboveHandler_failure_spec lat lng fetch hlat hlng (hfail _)
  have hp := passesHandler_failure_spec satId lat lng fetch hsat hlat hlng
    (hfail _)
  have he := earthImageHandler_failure_spec lat lng fetch hlat hlng (hfail _)
  have hw := weatherHandler_failure_spec lat lng fetch hlat hlng (hfail _)
  exact ⟨ha.1, ha.2, hp.1, hp.2, he.1, he.2, hw.1, hw.2⟩

/-- Witness for C2: with concrete coordinates, a satellite id, and a fetch
environment in which every request fails at the network layer, the
satellites-above and weather endpoints answer 500 with their fixed generic
error bodies. -/
theorem upstream_failure_yields_500_generic_error_witness :
    (aboveHandler (some "26.1") (some "32.7") downFetch).status = 500 ∧
    (aboveHandler (some "26.1") (some "32.7") downFetch).body =
      ResponseBody.jsonError "Failed to fetch satellite data." ∧
    (weatherHandler (some "26.1") (some "32.7") downFetch).status = 500 ∧
    (weatherHandler (some "26.1") (some "32.7") downFetch).body =
      ResponseBody.jsonError "Failed to fetch weather data." := by
  have h := upstream_failure_yields_500_generic_error (some "26.1")
    (some "32.7") (some "25544") downFetch rfl rfl rfl (fun _ => rfl)
  exact ⟨h.1, h.2.1, h.2.2.2.2.2.2.1, h.2.2.2.2.2.2.2⟩

/-! ## Claim C3 -/

/-- C3 counterexample: a request to the pass-prediction endpoint with both
coordinates present but the satellite id absent is rejected with 400 and
makes zero upstream calls — not exactly one, as the claim quantified over
"every request with both coordinates present" demands. -/
theorem coords_present_not_always_one_call :
    (passesHandler none (some "26.1") (some "32.7") downFetch).calls = [] ∧
    (passesHandler none (some "26.1") (some "32.7") downFetch).status = 400 := by
  constructor <;> rfl

/-- C3 (amended): for every request with all of its endpoint's required
parameters present (both coordinates, plus the satellite id on the
pass-prediction endpoint), each gateway endpoint issues exactly one upstream
call, the provider credential is injected into the upstream URL, and the
credential string never appears in an error body returned to the caller. -/
theorem required_params_single_call_credential_injected
    (lat lng satId : Option String) (fetch : String → FetchResult)
    (hlat : jsFalsy lat = false) (hlng : jsFalsy lng = false)
    (hsat : jsFalsy satId = false) :
    ((aboveHandler lat lng fetch).calls =
        [aboveUrl (lat.getD "") (lng.getD "")] ∧
      strContains (aboveUrl (lat.getD "") (lng.getD "")) API_KEYS_N2YO ∧
      ∀ m, (aboveHandler lat lng fetch).body = ResponseBody.jsonError m →
        ¬ strContains m API_KEYS_N2YO) ∧
    ((passesHandler satId lat lng fetch).calls =
        [passesUrl (satId.getD "") (lat.getD "") (lng.getD "")] ∧
      strContains (passesUrl (satId.getD "") (lat.getD "") (lng.getD ""))
        API_KEYS_N2YO ∧
      ∀ m, (passesHandler satId lat lng fetch).body = ResponseBody.jsonError m →
        ¬ strContains m API_KEYS_N2YO) ∧
    ((earthImageHandler lat lng fetch).calls =
        [earthImageUrl (lat.getD "") (lng.getD "")] ∧
      strContains (earthImageUrl (lat.getD "") (lng.getD "")) API_KEYS_NASA ∧
      ∀ m, (earthImageHandler lat lng fetch).body = ResponseBody.jsonError m →
        ¬ strContains m API_KEYS_NASA) ∧
    ((weatherHandler lat lng fetch).calls =
        [weatherUrl (lat.getD "") (lng.getD "")] ∧
      strContains (weatherUrl (lat.getD "") (lng.getD ""))
        API_KEYS_OPENWEATHER ∧
      ∀ m, (weatherHandler lat lng fetch).body = ResponseBody.jsonError m →
        ¬ strContains m API_KEYS_OPENWEATHER) := by
  obtain ⟨ha1, ha2⟩ := aboveHandler_present_spec lat lng fetch hlat hlng
  obtain ⟨hp1, hp2⟩ := passesHandler_present_spec satId lat lng fetch hsat
    hlat hlng
  obtain ⟨he1, he2⟩ := earthImageHandler_present_spec lat lng fetch hlat hlng
  obtain ⟨hw1, hw2⟩ := weatherHandler_present_spec lat lng fetch hlat hlng
  refine ⟨⟨ha1, aboveUrl_has_key _ _, ?_⟩, ⟨hp1, passesUrl_has_key _ _ _, ?_⟩,
    ⟨he1, earthImageUrl_has_key _ _, ?_⟩, ⟨hw1, weatherUrl_has_key _ _, ?_⟩⟩
  · intro m hm; rw [ha2 m hm]; decide
  · intro m hm; rw [hp2 m hm]; decide
  · intro m hm; rw [he2 m hm]; decide
  · intro m hm; rw [hw2 m hm]; decide

/-- Witness for C3 (amended): at concrete parameters and a failing network,
the satellites-above endpoint makes exactly its one credentialed call, and
its error body does not contain the credential. -/
theorem required_params_single_call_credential_injected_witness :
    (aboveHandler (some "26.1") (some "32.7") downFetch).calls =
      [aboveUrl "26.1" "32.7"] ∧
    strContains (aboveUrl "26.1" "32.7") API_KEYS_N2YO ∧
    ¬ strContains "Failed to fetch satellite data." API_KEYS_N2YO := by
  have h := required_params_single_call_credential_injected (some "26.1")
    (some "32.7") (some "25544") downFetch rfl rfl rfl
  exact ⟨h.1.1, h.1.2.1, h.1.2.2 "Failed to fetch satellite data." rfl⟩

/-! ## Claim C4 -/

/-- C4: on upstream success, the earth-image endpoint relays the upstream
binary body to the caller byte-identically, with no JSON wrapping or
transformation: the full handler result is exactly a 200 piping the
upstream bytes. -/
theorem earth_image_relays_upstream_bytes
    (lat lng : Option String) (fetch : String → FetchResult)
    (r : UpstreamResponse)
    (hlat : jsFalsy lat = false) (hlng : jsFalsy lng = false)
    (hfu : fetch (earthImageUrl (lat.getD "") (lng.getD "")) =
      FetchResult.success r)
    (hok : r.ok = true) :
    earthImageHandler lat lng fetch =
      { status := 200, body := ResponseBody.binaryPipe r.bytes,
        calls := [earthImageUrl (lat.getD "") (lng.getD "")],
        log := none } := by
  unfold earthImageHandler
  rw [if_neg (by simp [hlat, hlng])]
  simp [hfu, hok]

/-- A concrete successful upstream image response (PNG magic bytes) used by
the C4 witness. -/
def okImage : UpstreamResponse :=
  { ok := true, statusText := "OK", jsonBody := "", bytes := [137, 80, 78, 71] }

/-- A fetch environment whose every request succeeds with `okImage`. -/
def imageFetch : String → FetchResult := fun _ => .success okImage

/-- Witness for C4: with concrete coordinates and a successful upstream
image, the handler result is exactly a 200 carrying those bytes. -/
theorem earth_image_relays_upstream_bytes_witness :
    earthImageHandler (some "26.1") (some "32.7") imageFetch =
      { status := 200, body := ResponseBody.binaryPipe [137, 80, 78, 71],
        calls := [earthImageUrl "26.1" "32.7"], log := none } :=
  earth_image_relays_upstream_bytes (some "26.1") (some "32.7") imageFetch
    okImage rfl rfl rfl rfl

/-! ## Claim C10 -/

theorem aboveHandler_status_present (lat lng : Option String)
    (fetch : String → FetchResult)
    (hlat : jsFalsy lat = false) (hlng : jsFalsy lng = false) :
    (aboveHandler lat lng fetch).status = 200 ∨
    (aboveHandler lat lng fetch).status = 500 := by
  unfold aboveHandler
  rw [if_neg (by simp [hlat, hlng])]
  cases hfu : fetch (aboveUrl (lat.getD "") (lng.getD "")) with
  | success r => cases hok : r.ok <;> simp [hfu, hok]
  | networkFailure m => simp [hfu]

theorem passesHandler_status_present (satId lat lng : Option String)
    (fetch : String → FetchResult) (hsat : jsFalsy satId = false)
    (hlat : jsFalsy lat = false) (hlng : jsFalsy lng = false) :
    (passesHandler satId lat lng fetch).status = 200 ∨
    (passesHandler satId lat lng fetch).status = 500 := by
  unfold passesHandler
  rw [if_neg (by simp [hsat, hlat, hlng])]
  cases hfu : fetch (passesUrl (satId.getD "") (lat.getD "") (lng.getD "")) with
  | success r => cases hok : r.ok <;> simp [hfu, hok]
  | networkFailure m => simp [hfu]

theorem earthImageHandler_status_present (lat lng : Option String)
    (fetch : String → FetchResult)
    (hlat : jsFalsy lat = false) (hlng : jsFalsy lng = false) :
    (earthImageHandler lat lng fetch).status = 200 ∨
    (earthImageHandler lat lng fetch).status = 500 := by
  unfold earthImageHandler
  rw [if_neg (by simp [hlat, hlng])]
  cases hfu : fetch (earthImageUrl (lat.getD "") (lng.getD "")) with
  | success r => cases hok : r.ok <;> simp [hfu, hok]
  | networkFailure m => simp [hfu]

theorem weatherHandler_status_present (lat lng : Option String)
    (fetch : String → FetchResult)
    (hlat : jsFalsy lat = false) (hlng : jsFalsy lng = false) :
    (weatherHandler lat lng fetch).status = 200 ∨
    (weatherHandler lat lng fetch).status = 500 := by
  unfold weatherHandler
  rw [if_neg (by simp [hlat, hlng])]
  cases hfu : fetch (weatherUrl (lat.getD "") (lng.getD "")) with
  | success r => cases hok : r.ok <;> simp [hfu, hok]
  | networkFailure m => simp [hfu]

/-- C10: gateway validation is presence-only. The out-of-range latitude
"999" passes validation on every coordinate endpoint: no 400 is returned
(the status is the success 200 or the upstream-failure 500), and the value
is forwarded verbatim into the one upstream URL fetched. -/
theorem out_of_range_coordinate_passes_validation
    (fetch : String → FetchResult) :
    ((aboveHandler (some "999") (some "0") fetch).status = 200 ∨
      (aboveHandler (some "999") (some "0") fetch).status = 500) ∧
    (aboveHandler (some "999") (some "0") fetch).calls =
      [aboveUrl "999" "0"] ∧
    strContains (aboveUrl "999" "0") "999" ∧
    ((passesHandler (some "25544") (some "999") (some "0") fetch).status = 200 ∨
      (passesHandler (some "25544") (some "999") (some "0") fetch).status = 500) ∧
    (passesHandler (some "25544") (some "999") (some "0") fetch).calls =
      [passesUrl "25544" "999" "0"] ∧
    strContains (passesUrl "25544" "999" "0") "999" ∧
    ((earthImageHandler (some "999") (some "0") fetch).status = 200 ∨
      (earthImageHandler (some "999") (some "0") fetch).status = 500) ∧
    (earthImageHandler (some "999") (some "0") fetch).calls =
      [earthImageUrl "999" "0"] ∧
    strContains (earthImageUrl "999" "0") "999" ∧
    ((weatherHandler (some "999") (some "0") fetch).status = 200 ∨
      (weatherHandler (some "999") (some "0") fetch).status = 500) ∧
    (weatherHandler (some "999") (some "0") fetch).calls =
      [weatherUrl "999" "0"] ∧
    strContains (weatherUrl "999" "0") "999" := by
  refine ⟨aboveHandler_status_present (some "999") (some "0") fetch rfl rfl,
    (aboveHandler_present_spec (some "999") (some "0") fetch rfl rfl).1,
    by decide,
    passesHandler_status_present (some "25544") (some "999") (some "0") fetch
      rfl rfl rfl,
    (passesHandler_present_spec (some "25544") (some "999") (some "0") fetch
      rfl rfl rfl).1,
    by decide,
    earthImageHandler_status_present (some "999") (some "0") fetch rfl rfl,
    (earthImageHandler_present_spec (some "999") (some "0") fetch rfl rfl).1,
    by decide,
    weatherHandler_status_present (some "999") (some "0") fetch rfl rfl,
    (weatherHandler_present_spec (some "999") (some "0") fetch rfl rfl).1,
    by decide⟩

/-! ## Map client data model

JavaScript numbers become rationals. Markers placed on the clearable
`satMarkersLayer` are modelled by the data that determines them; the
synthetic pass-visualization polyline and its START/END markers
(`visualizeSatellitePass`) are a fixed parametric sin/cos curve computed
from the ground coordinates only (the `pass` argument is never read by the
geometry), so each of those layer elements is modelled by the ground
coordinates that determine it. -/

/-- JS `a || b` for a string: `b` when `a` is undefined or empty. -/
def jsOrString : Option String → String → String
  | none, d => d
  | some s, d => if s.isEmpty then d else s

/-- JS `a?.x || b` on optional values: the first if present, else the
second. -/
def jsOr {α : Type} : Option α → Option α → Option α
  | some x, _ => some x
  | none, b => b

/-- JS `Math.round`: round half toward positive infinity. -/
def jsRound (q : ℚ) : ℤ := ⌊q + 1 / 2⌋

/-- One element added to the clearable marker layer. -/
inductive Marker where
  | location (lat lng : String)
  | groundStation (lat lng : ℚ)
  | passTrack (lat lng : ℚ)
  | passStart (lat lng : ℚ)
  | passEnd (lat lng : ℚ)
  | country (latlng : ℚ × ℚ) (flagHtml : String)
deriving DecidableEq, Repr

/-- One entry of the `above` array of a satellites-above response:
`satid`, `satname`, optional `satalt`. -/
structure Satellite where
  satid : ℤ
  satname : String
  satalt : Option ℚ
deriving DecidableEq, Repr

/-- What `renderSatelliteList` leaves in the `satList` container: the
empty-state panel, or one selectable item per satellite in order. -/
inductive SatListRender where
  | emptyState
  | items (sats : List Satellite)
deriving DecidableEq, Repr

/-- `SatelliteExplorer.renderSatelliteList` (proxy.js lines 359-395): if the
argument is undefined or an empty array, render the no-satellites panel and
return; else render one button per entry. -/
def renderSatelliteList (satellites : Option (List Satellite)) :
    SatListRender :=
  match satellites with
  | none => .emptyState
  | some sats => if sats.isEmpty then .emptyState else .items sats

/-- The parsed body of a satellites-above response; the `above` field may be
absent. -/
structure AboveData where
  above : Option (List Satellite)
deriving DecidableEq, Repr

/-- The success path of `findSatellitesAbove` (proxy.js line 345):
`this.renderSatelliteList(data.above || [])`. -/
def findSatellitesAboveRender (data : AboveData) : SatListRender :=
  renderSatelliteList (some (data.above.getD []))

/-- One entry of the `passes` array of a pass-prediction response. -/
structure Pass where
  startUTC : ℚ
  duration : ℚ
  maxEl : ℚ
deriving DecidableEq, Repr

/-- The content `createPassPopup` renders (proxy.js lines 454-480): the
satellite name, the pass start instant (rendered as a local date string),
`Math.round(pass.duration)` seconds, the max elevation, and the three-tier
visibility status (CSS class and text). -/
structure PassPopup where
  title : String
  startUTC : ℚ
  durationSeconds : ℤ
  maxElevation : ℚ
  statusClass : String
  statusText : String
deriving DecidableEq, Repr

/-- `SatelliteExplorer.createPassPopup` (proxy.js lines 454-480). -/
def createPassPopup (name : String) (pass : Pass) : PassPopup :=
  { title := name
    startUTC := pass.startUTC
    durationSeconds := jsRound pass.duration
    maxElevation := pass.maxEl
    statusClass :=
      if pass.maxEl > 30 then "excellent"
      else if pass.maxEl > 15 then "good" else "fair"
    statusText :=
      if pass.maxEl > 30 then "Excellent visibility"
      else if pass.maxEl > 15 then "Good visibility"
      else "Fair visibility" }

/-- The parsed body of a pass-prediction response; the `passes` field may be
absent. -/
structure PassesData where
  passes : Option (List Pass)
deriving DecidableEq, Repr

/-- What the client observed from its fetch of `/api/n2yo/passes`: a thrown
error (non-ok status or network rejection) or a parsed body. -/
inductive PassesFetch where
  | fetchError
  | ok (data : PassesData)
deriving DecidableEq, Repr

/-- Everything `trackSatelliteById` renders: the marker layer afterwards,
the dismissible alert (if any), the status-line update modelled as the
tracked name with the first pass start instant, the popup bound to the
ground marker, and the recentered map view. -/
structure TrackOutcome where
  markers : List Marker
  alertMsg : Option String
  statusTracking : Option (String × ℚ)
  popup : Option PassPopup
  mapView : Option (ℚ × ℚ)
deriving DecidableEq, Repr

/-- `SatelliteExplorer.trackSatelliteById` (proxy.js lines 407-452). A fetch
failure alerts and leaves the layer alone; an empty or absent `passes` list
alerts `No upcoming passes found for ...` and leaves the layer alone; else
the first pass is rendered: the layer is cleared and repopulated with the
ground-station marker and the synthetic pass visualization, the popup is
built from that pass, and the view recenters on the ground coordinates. -/
def trackSatelliteById (name : String) (lat lng : ℚ) (resp : PassesFetch)
    (layer : List Marker) : TrackOutcome :=
  match resp with
  | .fetchError =>
      { markers := layer, alertMsg := some "Unable to predict satellite passes",
        statusTracking := none, popup := none, mapView := none }
  | .ok data =>
      match data.passes with
      | none =>
          { markers := layer,
            alertMsg := some ("No upcoming passes found for " ++ name),
            statusTracking := none, popup := none, mapView := none }
      | some [] =>
          { markers := layer,
            alertMsg := some ("No upcoming passes found for " ++ name),
            statusTracking := none, popup := none, mapView := none }
      | some (pass :: _) =>
          { markers := [ .groundStation lat lng, .passTrack lat lng,
              .passStart lat lng, .passEnd lat lng ],
            alertMsg := none,
            statusTracking := some (name, pass.startUTC),
            popup := some (createPassPopup name pass),
            mapView := some (lat, lng) }

/-- A country record as `searchCountry` consumes it: common name, optional
flag glyph, optional capital coordinates (`capitalInfo?.latlng`), optional
country coordinates (`latlng`). -/
structure Country where
  commonName : String
  flag : Option String
  capitalLatLng : Option (ℚ × ℚ)
  latlng : Option (ℚ × ℚ)
deriving DecidableEq, Repr

/-- What the client observed from its fetch of the country-lookup service:
a non-ok response (thrown as `Country not found`), or the parsed array of
matching records. -/
inductive CountryFetch where
  | notOk
  | ok (countries : List Country)
deriving DecidableEq, Repr

/-- Everything `searchCountry` renders: the marker layer afterwards, the
dismissible alert (if any), the status-line update, and the fitted
viewport bounds. -/
structure CountrySearchOutcome where
  markers : List Marker
  alertMsg : Option String
  statusMsg : Option String
  mapBounds : Option ((ℚ × ℚ) × (ℚ × ℚ))
deriving DecidableEq, Repr

/-- `SatelliteExplorer.searchCountry` (proxy.js lines 622-672). A non-ok
response throws `Country not found`; an empty result array makes
`countries[0]` undefined, so reading `country.capitalInfo` throws; both
land in the catch block, which alerts and touches no layer. With a first
record, `capitalInfo?.latlng || latlng` picks the coordinates; if neither
is present it throws to the same catch. Only once coordinates exist is the
layer cleared and the flag marker placed, the viewport fitted to a 3-degree
box, and the status line updated. -/
def searchCountry (resp : CountryFetch) (layer : List Marker) :
    CountrySearchOutcome :=
  match resp with
  | .notOk =>
      { markers := layer,
        alertMsg := some "Country not found. Please check spelling.",
        statusMsg := none, mapBounds := none }
  | .ok [] =>
      { markers := layer,
        alertMsg := some "Country not found. Please check spelling.",
        statusMsg := none, mapBounds := none }
  | .ok (c :: _) =>
      match jsOr c.capitalLatLng c.latlng with
      | none =>
          { markers := layer,
            alertMsg := some "Country not found. Please check spelling.",
            statusMsg := none, mapBounds := none }
      | some ll =>
          { markers := [ .country ll (jsOrString c.flag "🏛️") ],
            alertMsg := none,
            statusMsg := some ("Located: " ++ c.commonName),
            mapBounds := some ((ll.1 - 3, ll.2 - 3), (ll.1 + 3, ll.2 + 3)) }

/-- One entry of the `weather` array of an OpenWeatherMap response. -/
structure WeatherCondition where
  description : String
deriving DecidableEq, Repr

/-- The parsed body of a weather response as `displayWeatherData` reads it:
`name` (optional), `weather[0].description`, `main.temp`, `wind.speed`,
`main.humidity`, and the optional top-level `visibility` in metres. -/
structure WeatherData where
  name : Option String
  weather : List WeatherCondition
  mainTemp : ℚ
  windSpeed : ℚ
  mainHumidity : ℚ
  visibility : Option ℚ
deriving DecidableEq, Repr

/-- What the weather box shows in its visibility row: either a kilometre
value (the code formats it with `toFixed(1)`; the exact rational
`visibility / 1000` it formats is kept) or a literal placeholder string. -/
inductive VisibilityDisplay where
  | km (q : ℚ)
  | text (s : String)
deriving DecidableEq, Repr

/-- The fields `displayWeatherData` renders into the weather box. -/
structure WeatherRender where
  location : String
  condition : String
  tempC : ℤ
  windSpeed : ℚ
  humidityPct : ℚ
  visibilityText : VisibilityDisplay
deriving DecidableEq, Repr

/-- `SatelliteExplorer.displayWeatherData` (proxy.js lines 585-619). If the
`weather` array is empty, `data.weather[0]` is undefined and reading
`.description` throws (the caller's catch then shows the weather-error box),
modelled as `none`. Otherwise render location (`data.name` or the fallback),
condition text, `Math.round(data.main.temp)`, wind speed, humidity, and the
visibility row: `data.visibility ? (data.visibility / 1000).toFixed(1)
: "N/A"` — a falsy (absent or zero) visibility shows the literal "N/A". -/
def displayWeatherData (data : WeatherData) : Option WeatherRender :=
  match data.weather with
  | [] => none
  | condition :: _ =>
      some
        { location := jsOrString data.name "Current Location"
          condition := condition.description
          tempC := jsRound data.mainTemp
          windSpeed := data.windSpeed
          humidityPct := data.mainHumidity
          visibilityText :=
            match data.visibility with
            | none => .text "N/A"
            | some m => if m = 0 then .text "N/A" else .km (m / 1000) }

/-! ## Claim C5 -/

/-- C5: the pass popup's visibility label is "excellent" when the max
elevation exceeds 30, "good" when it exceeds 15 but not 30, and "fair"
otherwise; in particular max elevations 31, 20 and 10 yield "excellent",
"good" and "fair". -/
theorem visibility_label_three_tiers (name : String) (p : Pass) :
    (30 < p.maxEl → (createPassPopup name p).statusClass = "excellent") ∧
    (15 < p.maxEl → p.maxEl ≤ 30 →
      (createPassPopup name p).statusClass = "good") ∧
    (p.maxEl ≤ 15 → (createPassPopup name p).statusClass = "fair") ∧
    (createPassPopup name { p with maxEl := 31 }).statusClass = "excellent" ∧
    (createPassPopup name { p with maxEl := 20 }).statusClass = "good" ∧
    (createPassPopup name { p with maxEl := 10 }).statusClass = "fair" := by
  refine ⟨?_, ?_, ?_, ?_, ?_, ?_⟩
  · intro h; simp [createPassPopup, h]
  · intro h1 h2
    have h3 : ¬ p.maxEl > 30 := by linarith
    simp [createPassPopup, h1, h3]
  · intro h
    have h1 : ¬ p.maxEl > 30 := by linarith
    have h2 : ¬ p.maxEl > 15 := by linarith
    simp [createPassPopup, h1, h2]
  · norm_num [createPassPopup]
  · norm_num [createPassPopup]
  · norm_num [createPassPopup]

/-- A concrete predicted pass with max elevation 31, for witnesses. -/
def issPass : Pass := { startUTC := 1700000000, duration := 300, maxEl := 31 }

/-- Witness for C5: the concrete pass with max elevation 31 is labelled
"excellent". -/
theorem visibility_label_three_tiers_witness :
    (30 : ℚ) < issPass.maxEl ∧
    (createPassPopup "ISS" issPass).statusClass = "excellent" := by
  refine ⟨by norm_num [issPass], ?_⟩
  exact (visibility_label_three_tiers "ISS" issPass).1 (by norm_num [issPass])

/-! ## Claim C6 -/

/-- C6: when the satellites-above response has zero entries in `above`, or
no `above` field at all, the client renders the empty-state panel in the
satellite list container, not an error. -/
theorem empty_above_renders_empty_state (data : AboveData)
    (h : data.above = none ∨ data.above = some []) :
    findSatellitesAboveRender data = SatListRender.emptyState := by
  rcases h with h | h <;>
    simp [findSatellitesAboveRender, renderSatelliteList, h]

/-- Witness for C6: a response without an `above` field renders the
empty-state panel. -/
theorem empty_above_renders_empty_state_witness :
    findSatellitesAboveRender { above := none } = SatListRender.emptyState :=
  empty_above_renders_empty_state { above := none } (Or.inl rfl)

/-! ## Claim C7 -/

/-- C7: when the country search finds no matching record (non-ok response or
empty result array) or the first record has no usable coordinates, the
client shows the not-found alert and the marker layer is left exactly as it
was. -/
theorem country_not_found_leaves_markers (resp : CountryFetch)
    (layer : List Marker)
    (h : resp = CountryFetch.notOk ∨ resp = CountryFetch.ok [] ∨
      ∃ c rest, resp = CountryFetch.ok (c :: rest) ∧
        jsOr c.capitalLatLng c.latlng = none) :
    (searchCountry resp layer).markers = layer ∧
    (searchCountry resp layer).alertMsg =
      some "Country not found. Please check spelling." := by
  rcases h with h | h | ⟨c, rest, h, hll⟩
  · subst h; exact ⟨rfl, rfl⟩
  · subst h; exact ⟨rfl, rfl⟩
  · subst h; simp [searchCountry, hll]

/-- A marker layer holding one previously rendered country marker, for
witnesses. -/
def egyptMarkerLayer : List Marker := [ .country (30, 31) "🇪🇬"]

/-- Witness for C7: a non-ok lookup response leaves the previously rendered
marker in place and alerts. -/
theorem country_not_found_leaves_markers_witness :
    (searchCountry CountryFetch.notOk egyptMarkerLayer).markers =
      egyptMarkerLayer ∧
    (searchCountry CountryFetch.notOk egyptMarkerLayer).alertMsg =
      some "Country not found. Please check spelling." :=
  country_not_found_leaves_markers CountryFetch.notOk egyptMarkerLayer
    (Or.inl rfl)

/-! ## Claim C8 -/

/-- C8: track-pass rendering uses only the first entry of the prediction
list — the whole outcome (markers, popup, status, view) is unchanged by the
entries after the head — and when the list is empty or absent the client
alerts and leaves the marker layer unchanged. -/
theorem track_renders_first_pass_only (name : String) (lat lng : ℚ)
    (layer : List Marker) (p : Pass) (rest rest2 : List Pass) :
    trackSatelliteById name lat lng
        (PassesFetch.ok { passes := some (p :: rest) }) layer =
      trackSatelliteById name lat lng
        (PassesFetch.ok { passes := some (p :: rest2) }) layer ∧
    (trackSatelliteById name lat lng
        (PassesFetch.ok { passes := some (p :: rest) }) layer).popup =
      some (createPassPopup name p) ∧
    ∀ data : PassesData, data.passes = none ∨ data.passes = some [] →
      (trackSatelliteById name lat lng (PassesFetch.ok data) layer).markers =
        layer ∧
      (trackSatelliteById name lat lng (PassesFetch.ok data) layer).alertMsg =
        some ("No upcoming passes found for " ++ name) := by
  refine ⟨rfl, rfl, ?_⟩
  intro data h
  rcases data with ⟨passes⟩
  rcases h with h | h <;> subst h <;> exact ⟨rfl, rfl⟩

/-- A concrete predicted pass for the C8 witness. -/
def passSample : Pass :=
  { startUTC := 1700000000, duration := 300, maxEl := 20 }

/-- A second concrete pass that should never influence the render. -/
def passHigh : Pass :=
  { startUTC := 1700050000, duration := 600, maxEl := 50 }

/-- Witness for C8: dropping the second entry of the prediction list leaves
the outcome identical, and an absent list leaves the concrete marker layer
unchanged. -/
theorem track_renders_first_pass_only_witness :
    trackSatelliteById "ISS" 26 32
        (PassesFetch.ok { passes := some [passSample, passHigh] })
        [Marker.groundStation 1 2] =
      trackSatelliteById "ISS" 26 32
        (PassesFetch.ok { passes := some [passSample] })
        [Marker.groundStation 1 2] ∧
    (trackSatelliteById "ISS" 26 32 (PassesFetch.ok { passes := none })
        [Marker.groundStation 1 2]).markers = [Marker.groundStation 1 2] := by
  have h := track_renders_first_pass_only "ISS" 26 32
    [Marker.groundStation 1 2] passSample [passHigh] []
  exact ⟨h.1, (h.2.2 { passes := none } (Or.inl rfl)).1⟩

/-! ## Claim C9 -/

/-- A concrete weather response with no `visibility` field. -/
def weatherNoVisibility : WeatherData :=
  { name := some "Qina", weather := [{ description := "clear sky" }],
    mainTemp := 31.4, windSpeed := 3.6, mainHumidity := 20,
    visibility := none }

/-- C9 counterexample: with `visibility` absent, the weather box's
visibility row shows the literal string "N/A" — not "unknown" as the claim
states. -/
theorem weather_absent_visibility_shows_na :
    (displayWeatherData weatherNoVisibility).map WeatherRender.visibilityText =
      some (VisibilityDisplay.text "N/A") ∧
    VisibilityDisplay.text "N/A" ≠ VisibilityDisplay.text "unknown" := by
  exact ⟨rfl, by decide⟩

/-- C9 (amended): the weather render displays the location name, condition
text, rounded temperature, wind speed, humidity, and the visibility
converted to kilometres; when the `visibility` field is absent it displays
the string "N/A". -/
theorem weather_render_fields (data : WeatherData) (c : WeatherCondition)
    (rest : List WeatherCondition) (h : data.weather = c :: rest) :
    (displayWeatherData data).map WeatherRender.location =
      some (jsOrString data.name "Current Location") ∧
    (displayWeatherData data).map WeatherRender.condition =
      some c.description ∧
    (displayWeatherData data).map WeatherRender.tempC =
      some (jsRound data.mainTemp) ∧
    (displayWeatherData data).map WeatherRender.windSpeed =
      some data.windSpeed ∧
    (displayWeatherData data).map WeatherRender.humidityPct =
      some data.mainHumidity ∧
    (data.visibility = none →
      (displayWeatherData data).map WeatherRender.visibilityText =
        some (VisibilityDisplay.text "N/A")) ∧
    (∀ m : ℚ, data.visibility = some m → ¬ m = 0 →
      (displayWeatherData data).map WeatherRender.visibilityText =
        some (VisibilityDisplay.km (m / 1000))) := by
  refine ⟨by simp [displayWeatherData, h], by simp [displayWeatherData, h],
    by simp [displayWeatherData, h], by simp [displayWeatherData, h],
    by simp [displayWeatherData, h], ?_, ?_⟩
  · intro hv; simp [displayWeatherData, h, hv]
  · intro m hv hm; simp [displayWeatherData, h, hv, hm]

/-- A concrete weather response with every field present
(visibility 10000 metres). -/
def weatherFull : WeatherData :=
  { name := some "Qina", weather := [{ description := "clear sky" }],
    mainTemp := 31.4, windSpeed := 3.6, mainHumidity := 20,
    visibility := some 10000 }

/-- Witness for C9 (amended): the concrete response renders visibility
10 km and temperature rounded to 31. -/
theorem weather_render_fields_witness :
    (displayWeatherData weatherFull).map WeatherRender.visibilityText =
      some (VisibilityDisplay.km 10) ∧
    (displayWeatherData weatherFull).map WeatherRender.tempC = some 31 := by
  have h := weather_render_fields weatherFull { description := "clear sky" }
    [] rfl
  constructor
  · have h7 := h.2.2.2.2.2.2 10000 rfl (by norm_num)
    rw [h7]; norm_num
  · have h3 := h.2.2.1
    rw [h3]
    norm_num [weatherFull, jsRound]

end SatProxy
